import Mathlib

/-!
ipopt4py: the bridge between host arrays/callables and the IPOPT callback protocol.

A shallow embedding of `src/ipopt4py/ipopt4py.cxx`.

* Raw memory handed over by the solver (`coin_value_t *`) is a list of bytes; a
  buffer of `n` numbers occupies `n * sizeof(coin_value_t)` bytes.
* `size_t` arithmetic is arithmetic on `Nat` reduced modulo `2 ^ 64`;
  `coin_index_t` (`int`) arithmetic is arithmetic on `Int` wrapped to 32 bits.
* A C++ exception leaving a function is an `Except.error`; every operation also
  returns the memory it may have written, so that what happened before the throw
  stays visible.
* What the Python runtime and numpy do (calling a host callable, converting an
  object to an array) is a parameter of the model, the record `python`. The host
  has a state of its own, and a call of a host callable also says what the array
  it was handed holds afterwards: the adapter hands its one `$xpoint` object over
  by reference.
* An array carries its strides, so that the elements of an array that is not
  contiguous can be told from the bytes `memcpy` reads.
-/

namespace ipopt4py

/-! ## Machine integers and raw memory -/

/-- One byte of raw memory. -/
abbrev byte := Nat

/-- The number of values of `size_t` (64 bits). -/
def SIZE_MOD : Nat := 2 ^ 64

/-- Largest value of `coin_index_t` (`int`, 32 bits). -/
def INT_MAX : Int := 2 ^ 31 - 1

/-- Smallest value of `coin_index_t`. -/
def INT_MIN : Int := -(2 ^ 31)

/-- Conversion of a `coin_index_t` to `size_t` (value modulo `2 ^ 64`). -/
def to_size_t (i : Int) : Nat := (i % (2 ^ 64 : Int)).toNat

/-- Result of an `int` operation whose mathematical value is `z`: two-complement
wrap-around into `[-2^31, 2^31)`. C++ leaves signed overflow undefined; this is
what the usual targets compute. Within range the result is `z` itself. -/
def wrap_index (z : Int) : Int := (z + 2 ^ 31) % 2 ^ 32 - 2 ^ 31

/-- Model of `std::memcpy(dst, src, n)`: the first `n` bytes of `dst` are replaced
by the first `n` bytes of `src`. -/
def memcpy (dst src : List byte) (n : Nat) : List byte :=
  src.take n ++ dst.drop n

/-! ## numpy arrays as seen through boost::python::numpy -/

/-- A numpy element type descriptor. -/
structure dtype where
  kind : Char
  itemsize : Nat
deriving DecidableEq

/-- The element type `coin_value_t` (`double`); `dtype::get_builtin<coin_value_t>()`. -/
def coin_value_t : dtype := ⟨'f', 8⟩

/-- Flag bit `bnp::ndarray::C_CONTIGUOUS`. -/
def C_CONTIGUOUS : Nat := 0x1
/-- Flag bit `bnp::ndarray::F_CONTIGUOUS`. -/
def F_CONTIGUOUS : Nat := 0x2
/-- Flag bit `bnp::ndarray::ALIGNED`. -/
def ALIGNED : Nat := 0x4
/-- Flag bit `bnp::ndarray::WRITEABLE`. -/
def WRITEABLE : Nat := 0x8
/-- Flag mask `bnp::ndarray::CARRAY_RO`, declared by Boost.Python as
`C_CONTIGUOUS | ALIGNED`. -/
def CARRAY_RO : Nat := C_CONTIGUOUS ||| ALIGNED

/-- A `bnp::ndarray`: element type, flag word, shape, byte strides (one per
dimension; those of the arrays considered here are not negative), and the bytes
found at `get_data()`. -/
structure ndarray where
  get_dtype : dtype
  get_flags : Nat
  shape : List Nat
  strides : List Nat
  get_data : List byte
deriving DecidableEq

/-- Mathematical number of elements of an array (product of its shape). -/
def ndarray.count (a : ndarray) : Nat := a.shape.prod

/-- The `index`-th element of a one-dimensional array: `itemsize` bytes found
`index` strides after `get_data()`. -/
def ndarray.item (a : ndarray) (index : Nat) : List byte :=
  (a.get_data.drop (index * a.strides.headD 0)).take a.get_dtype.itemsize

/-- The elements of a one-dimensional array, one after the other: the bytes a copy
of the array element for element consists of. -/
def ndarray.values (a : ndarray) : List byte :=
  ((List.range a.count).map a.item).flatten

/-- Exceptions that can leave the bridge. -/
inductive error where
  /-- A `std::runtime_error` thrown by the bridge itself. -/
  | runtime_error (what : String)
  /-- An exception coming from the Python side: raised by a host callable, by numpy
  or by a Boost.Python conversion. -/
  | python_error (what : String)
  /-- Behaviour that C++ leaves undefined (a null pointer is read or written). -/
  | undefined (what : String)
deriving DecidableEq

deriving instance DecidableEq for Except

/-- Function `make_ndarray_from_data<T>(size, data)`: a one-dimensional view with stride
`sizeof(T)` over existing memory; nothing is copied. -/
def make_ndarray_from_data (T : dtype) (size : Nat) (data : List byte) : ndarray :=
  { get_dtype := T
    get_flags := C_CONTIGUOUS ||| F_CONTIGUOUS ||| ALIGNED
    shape := [size]
    strides := [T.itemsize]
    get_data := data }

/-- The method `ndarray.copy()` on a C-contiguous array (the only kind this program
copies): a fresh array owning exactly the bytes of its elements. -/
def ndarray.copy (a : ndarray) : ndarray :=
  { get_dtype := a.get_dtype
    get_flags := C_CONTIGUOUS ||| F_CONTIGUOUS ||| ALIGNED ||| WRITEABLE
    shape := a.shape
    strides := a.strides
    get_data := a.get_data.take (a.count * a.get_dtype.itemsize) }

/-- Outcome of `copy_ndarray_into_data`: the destination memory afterwards and the
returned count (or the exception thrown). -/
structure copied where
  data : List byte
  ret : Except error Nat
deriving DecidableEq

/-- The loop computing `ndarray_size` in `copy_ndarray_into_data`: one `size_t`
multiplication per dimension, `index` running over `0 .. array.get_nd()-1`. -/
def ndarray_size (array : ndarray) : Nat :=
  array.shape.foldl (fun acc extent => acc * extent % SIZE_MOD) 1

/-- Function `copy_ndarray_into_data<T>(size, data, array)`. -/
def copy_ndarray_into_data (T : dtype) (size : Nat) (data : List byte)
    (array : ndarray) : copied :=
  if array.get_dtype ≠ T then
    ⟨data, .error (.runtime_error
      "The numpy.ndarray can not be converted to the desired C-type.")⟩
  else if array.get_flags &&& CARRAY_RO = 0 then
    ⟨data, .error (.runtime_error "The numpy.ndarray is not C-ordered.")⟩
  else
    let count := min (ndarray_size array) size
    let bytes := count * T.itemsize % SIZE_MOD
    ⟨memcpy data array.get_data bytes, .ok count⟩

/-- The `i`-th element of type `T` stored in a buffer. -/
def element (T : dtype) (buf : List byte) (i : Nat) : List byte :=
  (buf.drop (i * T.itemsize)).take T.itemsize

/-! ## Python objects and the host runtime -/

/-- A `coin_value_t` scalar (`double`), identified by its bit pattern. -/
abbrev double := Nat

/-- A `bpy::object`. Host objects without structure of interest to the bridge
(functions, lists, ...) are references, given meaning by the runtime. -/
inductive pyobject where
  | None
  | int (v : Int)
  | float (v : double)
  | str (s : String)
  | array (a : ndarray)
  | ref (id : Nat)
deriving DecidableEq

/-- What a call of a host callable leaves behind. The array is handed over by
reference, and it is writeable: besides the returned object (or the exception
raised) and the state of the host, the call determines what the array handed over
holds when it returns. -/
structure called (σ : Type) where
  ret : Except error pyobject
  xpoint : pyobject
  host : σ

/-- The part of the Python runtime the bridge relies on and that lies outside
this program: what host callables and numpy do. The host has a state of its own
(`σ`), which only calls of host callables read and change. -/
structure python (σ : Type) where
  /-- Calling a host object as `f(xnew, xpoint)` in a given state of the host. -/
  call : σ → pyobject → Bool → pyobject → called σ
  /-- The conversion `bnp::array(from, dtype)`. Boost.Python asks numpy for an array
  of that type and no more: an array that already has the type comes back as it
  is, whatever its layout. -/
  array : pyobject → dtype → Except error ndarray
  /-- The number `bpy::extract<coin_value_t>` finds in an object; `none` when
  `check()` is false. -/
  extract_value : pyobject → Option double

/-- The conversion `bpy::extract<coin_index_t>(object)`: a Python integer within
the range of `int`; anything else raises. -/
def extract_index : pyobject → Except error Int
  | .int v =>
    if INT_MIN ≤ v ∧ v ≤ INT_MAX then .ok v
    else .error (.python_error "OverflowError")
  | _ => .error (.python_error "TypeError")

/-- The conversion `bpy::extract<std::string>(object)`: the text of a Python
string; anything else raises. -/
def extract_string : pyobject → Except error String
  | .str s => .ok s
  | _ => .error (.python_error "TypeError")

/-! ## The proxied non-linear problem -/

/-- The record `proxy_nlp_result`. -/
structure proxy_nlp_result where
  status : Int
  success : Int
  message : String
  fval : pyobject
  xval : pyobject
  gval : pyobject
deriving DecidableEq

/-- The data members of `proxy_nlp`. -/
structure proxy_nlp where
  result : proxy_nlp_result
  xpoint : pyobject
  evalf : pyobject
  gradf : pyobject
  evalg : pyobject
  gradg : pyobject
  xstart : pyobject
  xcount : pyobject
  xlimlo : pyobject
  xlimhi : pyobject
  gcount : pyobject
  glimlo : pyobject
  glimhi : pyobject
deriving DecidableEq

/-- The constructor of `proxy_nlp`. `$xpoint` and the objects of `$result` start as
`None`; the two `int` members of `$result`, which C++ leaves uninitialised, are
shown as `0`. -/
def proxy_nlp.new (evalf gradf evalg gradg xstart xcount xlimlo xlimhi
    gcount glimlo glimhi : pyobject) : proxy_nlp :=
  { result := ⟨0, 0, "", .None, .None, .None⟩
    xpoint := .None
    evalf := evalf, gradf := gradf, evalg := evalg, gradg := gradg
    xstart := xstart
    xcount := xcount, xlimlo := xlimlo, xlimhi := xlimhi
    gcount := gcount, glimlo := glimlo, glimhi := glimhi }

/-- Method `proxy_nlp::make_ndarray(from)`. -/
def proxy_nlp.make_ndarray {σ : Type} (py : python σ) (source : pyobject) : Except error ndarray :=
  py.array source coin_value_t

/-- Method `proxy_nlp::update(xlen, xval)`. -/
def proxy_nlp.update (self : proxy_nlp) (xlen : Int) (xval : List byte) : proxy_nlp :=
  { self with
    xpoint := .array (make_ndarray_from_data coin_value_t (to_size_t xlen) xval).copy }

/-- The store `buffer[off] = value` through a `coin_index_t *`. A store outside the
buffer is not defined by C++; the model leaves the buffer as it is. -/
def store (buffer : List Int) (off : Int) (value : Int) : List Int :=
  if 0 ≤ off then buffer.set off.toNat value else buffer

/-- State of the loops of `setindices`: the running offset and the two buffers. -/
structure indices where
  off : Int
  jrow : List Int
  jcol : List Int
deriving DecidableEq

/-- Body of the inner loop of `setindices`, with its `++off`. -/
def setindices_body (row col : Int) (st : indices) : indices :=
  { off := wrap_index (st.off + 1)
    jrow := store st.jrow st.off row
    jcol := store st.jcol st.off col }

/-- Method `proxy_nlp::setindices(xlen, glen, jrow, jcol)`: `row` runs over `0 .. glen-1`
and, inside, `col` over `0 .. xlen-1`. -/
def proxy_nlp.setindices (xlen glen : Int) (jrow jcol : List Int) : indices :=
  (List.range glen.toNat).foldl
    (fun (st : indices) (row : Nat) =>
      (List.range xlen.toNat).foldl
        (fun (st : indices) (col : Nat) => setindices_body (row : Int) (col : Int) st) st)
    ⟨0, jrow, jcol⟩

/-- The enumeration `coin::TNLP::IndexStyleEnum`. -/
inductive IndexStyleEnum where
  | C_STYLE
  | FORTRAN_STYLE
deriving DecidableEq

/-- The reference parameters of `get_nlp_info`. -/
structure nlp_info where
  xlen : Int
  glen : Int
  jlen : Int
  hlen : Int
  flag : IndexStyleEnum
deriving DecidableEq

/-- Method `proxy_nlp::get_nlp_info(xlen, glen, jlen, hlen, flag)`: the reference
parameters afterwards, and the returned value or the exception. -/
def proxy_nlp.get_nlp_info (self : proxy_nlp) (out : nlp_info) :
    nlp_info × Except error Bool :=
  match extract_index self.xcount with
  | .error e => (out, .error e)
  | .ok xlen =>
    match extract_index self.gcount with
    | .error e => ({ out with xlen := xlen }, .error e)
    | .ok glen =>
      ({ xlen := xlen
         glen := glen
         jlen := wrap_index (glen * xlen)
         hlen := wrap_index (xlen * xlen)
         flag := .C_STYLE }, .ok true)

/-- Outcome of `get_bounds_info`: the four buffers afterwards and the returned
value or the exception. -/
structure bounds_info where
  xmin : List byte
  xmax : List byte
  gmin : List byte
  gmax : List byte
  ret : Except error Bool
deriving DecidableEq

/-- Method `proxy_nlp::get_bounds_info(xlen, xmin, xmax, glen, gmin, gmax)`. -/
def proxy_nlp.get_bounds_info {σ : Type} (py : python σ) (self : proxy_nlp)
    (xlen : Int) (xmin xmax : List byte) (glen : Int) (gmin gmax : List byte) :
    bounds_info :=
  -- xlimlo
  match proxy_nlp.make_ndarray py self.xlimlo with
  | .error e => ⟨xmin, xmax, gmin, gmax, .error e⟩
  | .ok a1 =>
  let c1 := copy_ndarray_into_data coin_value_t (to_size_t xlen) xmin a1
  match c1.ret with
  | .error e => ⟨c1.data, xmax, gmin, gmax, .error e⟩
  | .ok count1 =>
  if to_size_t xlen ≠ count1 then
    ⟨c1.data, xmax, gmin, gmax, .error (.runtime_error
      "Lower limit (xlimlo) in get_bounds_info shorter than xcount.")⟩
  else
  -- xlimhi
  match proxy_nlp.make_ndarray py self.xlimhi with
  | .error e => ⟨c1.data, xmax, gmin, gmax, .error e⟩
  | .ok a2 =>
  let c2 := copy_ndarray_into_data coin_value_t (to_size_t xlen) xmax a2
  match c2.ret with
  | .error e => ⟨c1.data, c2.data, gmin, gmax, .error e⟩
  | .ok count2 =>
  if to_size_t xlen ≠ count2 then
    ⟨c1.data, c2.data, gmin, gmax, .error (.runtime_error
      "Upper limit (xlimhi) in get_bounds_info shorter than xcount.")⟩
  else
  -- glimlo
  match proxy_nlp.make_ndarray py self.glimlo with
  | .error e => ⟨c1.data, c2.data, gmin, gmax, .error e⟩
  | .ok a3 =>
  let c3 := copy_ndarray_into_data coin_value_t (to_size_t glen) gmin a3
  match c3.ret with
  | .error e => ⟨c1.data, c2.data, c3.data, gmax, .error e⟩
  | .ok count3 =>
  if to_size_t glen ≠ count3 then
    ⟨c1.data, c2.data, c3.data, gmax, .error (.runtime_error
      "Upper limit (glimlo) in get_bounds_info shorter than gcount.")⟩
  else
  -- glimhi
  match proxy_nlp.make_ndarray py self.glimhi with
  | .error e => ⟨c1.data, c2.data, c3.data, gmax, .error e⟩
  | .ok a4 =>
  let c4 := copy_ndarray_into_data coin_value_t (to_size_t glen) gmax a4
  match c4.ret with
  | .error e => ⟨c1.data, c2.data, c3.data, c4.data, .error e⟩
  | .ok count4 =>
  if to_size_t glen ≠ count4 then
    ⟨c1.data, c2.data, c3.data, c4.data, .error (.runtime_error
      "Upper limit (glimhi) in get_bounds_info shorter than gcount.")⟩
  else
    ⟨c1.data, c2.data, c3.data, c4.data, .ok true⟩

/-- Outcome of `get_starting_point`: the `xval` buffer afterwards (the function
never writes `zmin`, `zmax` or `lval`) and the returned value or the exception. -/
structure starting_point where
  xval : List byte
  ret : Except error Bool
deriving DecidableEq

/-- Method `proxy_nlp::get_starting_point(xlen, xset, xval, zset, zmin, zmax, glen, lset,
lval)`. -/
def proxy_nlp.get_starting_point {σ : Type} (py : python σ) (self : proxy_nlp)
    (xlen : Int) (xset : Bool) (xval : List byte)
    (zset : Bool) (_zmin _zmax : List byte)
    (_glen : Int) (lset : Bool) (_lval : List byte) : starting_point :=
  if zset || lset then
    ⟨xval, .error (.runtime_error
      "Setting (bound) multipliers not supported in get_starting_point.")⟩
  else if xset then
    match proxy_nlp.make_ndarray py self.xstart with
    | .error e => ⟨xval, .error e⟩
    | .ok a =>
    let c := copy_ndarray_into_data coin_value_t (to_size_t xlen) xval a
    match c.ret with
    | .error e => ⟨c.data, .error e⟩
    | .ok count =>
    if to_size_t xlen ≠ count then
      ⟨c.data, .error (.runtime_error
        "Starting point (xstart) in get_starting_point shorter than xcount.")⟩
    else
      ⟨c.data, .ok true⟩
  else
    ⟨xval, .ok true⟩

/-- One invocation of a host callable: the object called and its two arguments. -/
structure host_call where
  callee : pyobject
  xnew : Bool
  xpoint : pyobject
deriving DecidableEq

/-- Outcome of an evaluation callback: the adapter and the host afterwards, the
host callables the callback invoked (in order), its output parameter afterwards,
and the returned value or the exception. -/
structure evaluated (σ : Type) (α : Type) where
  self : proxy_nlp
  host : σ
  calls : List host_call
  out : α
  ret : Except error Bool

/-- The call `callable(xnew, $xpoint)` of a host callable from a callback: the
adapter keeps referring to the array it handed over, so `$xpoint` afterwards is
that array as the call left it. -/
def proxy_nlp.invoke {σ : Type} (py : python σ) (self : proxy_nlp) (host : σ)
    (callable : pyobject) (xnew : Bool) : proxy_nlp × called σ :=
  let r := py.call host callable xnew self.xpoint
  ({ self with xpoint := r.xpoint }, r)

/-- Method `proxy_nlp::eval_f(xlen, xval, xnew, fval)`. -/
def proxy_nlp.eval_f {σ : Type} (py : python σ) (self : proxy_nlp) (host : σ)
    (xlen : Int) (xval : List byte) (xnew : Bool) (fval : double) : evaluated σ double :=
  let self := if xnew then self.update xlen xval else self
  let calls := [⟨self.evalf, xnew, self.xpoint⟩]
  let (self, r) := self.invoke py host self.evalf xnew
  match r.ret with
  | .error e => ⟨self, r.host, calls, fval, .error e⟩
  | .ok retval =>
  match py.extract_value retval with
  | none => ⟨self, r.host, calls, fval, .error (.runtime_error
      "The result of evalf can not be converted to the desired C-type.")⟩
  | some result => ⟨self, r.host, calls, result, .ok true⟩

/-- Method `proxy_nlp::eval_g(xlen, xval, xnew, glen, gval)`. -/
def proxy_nlp.eval_g {σ : Type} (py : python σ) (self : proxy_nlp) (host : σ)
    (xlen : Int) (xval : List byte) (xnew : Bool) (glen : Int) (gval : List byte) :
    evaluated σ (List byte) :=
  let self := if xnew then self.update xlen xval else self
  let calls := [⟨self.evalg, xnew, self.xpoint⟩]
  let (self, r) := self.invoke py host self.evalg xnew
  match r.ret with
  | .error e => ⟨self, r.host, calls, gval, .error e⟩
  | .ok retval =>
  match proxy_nlp.make_ndarray py retval with
  | .error e => ⟨self, r.host, calls, gval, .error e⟩
  | .ok result =>
  let c := copy_ndarray_into_data coin_value_t (to_size_t glen) gval result
  match c.ret with
  | .error e => ⟨self, r.host, calls, c.data, .error e⟩
  | .ok count =>
  if to_size_t glen ≠ count then
    ⟨self, r.host, calls, c.data, .error (.runtime_error
      "The result of evalg is shorter than gcount.")⟩
  else
    ⟨self, r.host, calls, c.data, .ok true⟩

/-- Method `proxy_nlp::eval_grad_f(xlen, xval, xnew, jval)`. -/
def proxy_nlp.eval_grad_f {σ : Type} (py : python σ) (self : proxy_nlp) (host : σ)
    (xlen : Int) (xval : List byte) (xnew : Bool) (jval : List byte) :
    evaluated σ (List byte) :=
  let self := if xnew then self.update xlen xval else self
  let calls := [⟨self.gradf, xnew, self.xpoint⟩]
  let (self, r) := self.invoke py host self.gradf xnew
  match r.ret with
  | .error e => ⟨self, r.host, calls, jval, .error e⟩
  | .ok retval =>
  match proxy_nlp.make_ndarray py retval with
  | .error e => ⟨self, r.host, calls, jval, .error e⟩
  | .ok result =>
  let c := copy_ndarray_into_data coin_value_t (to_size_t xlen) jval result
  match c.ret with
  | .error e => ⟨self, r.host, calls, c.data, .error e⟩
  | .ok count =>
  if to_size_t xlen ≠ count then
    ⟨self, r.host, calls, c.data, .error (.runtime_error
      "The result of gradf is shorter than xcount.")⟩
  else
    ⟨self, r.host, calls, c.data, .ok true⟩

/-- Output parameters of `eval_jac_g`; `jval` is `none` for a null pointer. -/
structure jacobian where
  jrow : List Int
  jcol : List Int
  jval : Option (List byte)
deriving DecidableEq

/-- Method `proxy_nlp::eval_jac_g(xlen, xval, xnew, glen, jlen, jrow, jcol, jval)`; a null
`xval` or `jval` is `none`. Reading or writing through a null pointer is not
defined by C++ and is reported as `error.undefined`. -/
def proxy_nlp.eval_jac_g {σ : Type} (py : python σ) (self : proxy_nlp) (host : σ)
    (xlen : Int) (xval : Option (List byte)) (xnew : Bool) (glen : Int) (jlen : Int)
    (jrow jcol : List Int) (jval : Option (List byte)) : evaluated σ jacobian :=
  match xval, jval with
  | none, none =>
    let ix := proxy_nlp.setindices xlen glen jrow jcol
    ⟨self, host, [], ⟨ix.jrow, ix.jcol, none⟩, .ok true⟩
  | xval, jval =>
  match (if xnew then xval.map (self.update xlen) else some self) with
  | none =>
    ⟨self, host, [], ⟨jrow, jcol, jval⟩, .error (.undefined "update: xval is null")⟩
  | some self =>
  let calls := [⟨self.gradg, xnew, self.xpoint⟩]
  let (self, r) := self.invoke py host self.gradg xnew
  match r.ret with
  | .error e => ⟨self, r.host, calls, ⟨jrow, jcol, jval⟩, .error e⟩
  | .ok retval =>
  match proxy_nlp.make_ndarray py retval with
  | .error e => ⟨self, r.host, calls, ⟨jrow, jcol, jval⟩, .error e⟩
  | .ok result =>
  match jval with
  | none =>
    match (copy_ndarray_into_data coin_value_t (to_size_t jlen) [] result).ret with
    | .error e => ⟨self, r.host, calls, ⟨jrow, jcol, none⟩, .error e⟩
    | .ok _ =>
      ⟨self, r.host, calls, ⟨jrow, jcol, none⟩, .error (.undefined "memcpy: jval is null")⟩
  | some jval =>
  let c := copy_ndarray_into_data coin_value_t (to_size_t jlen) jval result
  match c.ret with
  | .error e => ⟨self, r.host, calls, ⟨jrow, jcol, some c.data⟩, .error e⟩
  | .ok count =>
  if to_size_t jlen ≠ count then
    ⟨self, r.host, calls, ⟨jrow, jcol, some c.data⟩, .error (.runtime_error
      "The result of gradg is shorter than xcount * gcount.")⟩
  else
    ⟨self, r.host, calls, ⟨jrow, jcol, some c.data⟩, .ok true⟩

/-! ## Solver status codes and the result record -/

/-- The numeric values of the enumerators of `coin::SolverReturn` named in
`proxy_nlp::message`. The enumeration is declared by the solver, outside this
program, so its values are a parameter. -/
structure SolverReturn where
  SUCCESS : Int
  MAXITER_EXCEEDED : Int
  CPUTIME_EXCEEDED : Int
  STOP_AT_TINY_STEP : Int
  STOP_AT_ACCEPTABLE_POINT : Int
  LOCAL_INFEASIBILITY : Int
  USER_REQUESTED_STOP : Int
  FEASIBLE_POINT_FOUND : Int
  DIVERGING_ITERATES : Int
  RESTORATION_FAILURE : Int
  ERROR_IN_STEP_COMPUTATION : Int
  INVALID_NUMBER_DETECTED : Int
  TOO_FEW_DEGREES_OF_FREEDOM : Int
  INVALID_OPTION : Int
  OUT_OF_MEMORY : Int
  INTERNAL_ERROR : Int
  UNASSIGNED : Int
deriving DecidableEq

/-- The enumerators handled by `proxy_nlp::message`, each with its name. -/
def SolverReturn.table (coin : SolverReturn) : List (Int × String) :=
   [
    (coin.SUCCESS, "SUCCESS"),
    (coin.MAXITER_EXCEEDED, "MAXITER_EXCEEDED"),
    (coin.CPUTIME_EXCEEDED, "CPUTIME_EXCEEDED"),
    (coin.STOP_AT_TINY_STEP, "STOP_AT_TINY_STEP"),
    (coin.STOP_AT_ACCEPTABLE_POINT, "STOP_AT_ACCEPTABLE_POINT"),
    (coin.LOCAL_INFEASIBILITY, "LOCAL_INFEASIBILITY"),
    (coin.USER_REQUESTED_STOP, "USER_REQUESTED_STOP"),
    (coin.FEASIBLE_POINT_FOUND, "FEASIBLE_POINT_FOUND"),
    (coin.DIVERGING_ITERATES, "DIVERGING_ITERATES"),
    (coin.RESTORATION_FAILURE, "RESTORATION_FAILURE"),
    (coin.ERROR_IN_STEP_COMPUTATION, "ERROR_IN_STEP_COMPUTATION"),
    (coin.INVALID_NUMBER_DETECTED, "INVALID_NUMBER_DETECTED"),
    (coin.TOO_FEW_DEGREES_OF_FREEDOM, "TOO_FEW_DEGREES_OF_FREEDOM"),
    (coin.INVALID_OPTION, "INVALID_OPTION"),
    (coin.OUT_OF_MEMORY, "OUT_OF_MEMORY"),
    (coin.INTERNAL_ERROR, "INTERNAL_ERROR"),
    (coin.UNASSIGNED, "UNASSIGNED")]

/-- Enumerators of one enumeration have pairwise different values. -/
def SolverReturn.distinct (coin : SolverReturn) : Prop :=
  (coin.table.map Prod.fst).Nodup

instance (coin : SolverReturn) : Decidable coin.distinct := by
  unfold SolverReturn.distinct; infer_instance

/-- Method `proxy_nlp::message(status)`: the `switch`, one test per `case` label. -/
def proxy_nlp.message (coin : SolverReturn) (status : Int) : String :=
  if status = coin.SUCCESS then "SUCCESS" else
  if status = coin.MAXITER_EXCEEDED then "MAXITER_EXCEEDED" else
  if status = coin.CPUTIME_EXCEEDED then "CPUTIME_EXCEEDED" else
  if status = coin.STOP_AT_TINY_STEP then "STOP_AT_TINY_STEP" else
  if status = coin.STOP_AT_ACCEPTABLE_POINT then "STOP_AT_ACCEPTABLE_POINT" else
  if status = coin.LOCAL_INFEASIBILITY then "LOCAL_INFEASIBILITY" else
  if status = coin.USER_REQUESTED_STOP then "USER_REQUESTED_STOP" else
  if status = coin.FEASIBLE_POINT_FOUND then "FEASIBLE_POINT_FOUND" else
  if status = coin.DIVERGING_ITERATES then "DIVERGING_ITERATES" else
  if status = coin.RESTORATION_FAILURE then "RESTORATION_FAILURE" else
  if status = coin.ERROR_IN_STEP_COMPUTATION then "ERROR_IN_STEP_COMPUTATION" else
  if status = coin.INVALID_NUMBER_DETECTED then "INVALID_NUMBER_DETECTED" else
  if status = coin.TOO_FEW_DEGREES_OF_FREEDOM then "TOO_FEW_DEGREES_OF_FREEDOM" else
  if status = coin.INVALID_OPTION then "INVALID_OPTION" else
  if status = coin.OUT_OF_MEMORY then "OUT_OF_MEMORY" else
  if status = coin.INTERNAL_ERROR then "INTERNAL_ERROR" else
  if status = coin.UNASSIGNED then "UNASSIGNED" else
  "UNASSIGNED"

/-- Method `proxy_nlp::finalize_solution(status, xlen, xval, _, _, glen, gval, _, fval, _,
_)`; the parameters the function ignores are left out. -/
def proxy_nlp.finalize_solution (coin : SolverReturn) (self : proxy_nlp)
    (status : Int) (xlen : Int) (xval : List byte) (glen : Int) (gval : List byte)
    (fval : double) : proxy_nlp :=
  { self with
    result :=
      { status := status
        message := proxy_nlp.message coin status
        success := if status = coin.SUCCESS then 1 else 0
        fval := .float fval
        xval := .array (make_ndarray_from_data coin_value_t (to_size_t xlen) xval).copy
        gval := .array (make_ndarray_from_data coin_value_t (to_size_t glen) gval).copy } }

/-- A `switch` over a list of `case value: return name;` entries with a `default`,
read from top to bottom. Used to reason about `proxy_nlp::message`. -/
def switch_on (default : String) (status : Int) : List (Int × String) → String
  | [] => default
  | (value, name) :: rest =>
    if status = value then name else switch_on default status rest

/-! ## The option loop of `minimize` -/

/-- The loop of `minimize` that fills `options_stream`: `options` is the sequence of
objects the iteration over the host object yields, `stream` the text written so
far. Each object is extracted as a string and written, followed by `std::endl`. -/
def options_loop : List pyobject → String → Except error String
  | [], stream => .ok stream
  | item :: rest, stream =>
    match extract_string item with
    | .error e => .error e
    | .ok option_line => options_loop rest ((stream ++ option_line) ++ "\n")

/-- The text of `options_stream` when `minimize` hands it to the solver. -/
def options_stream (options : List pyobject) : Except error String :=
  options_loop options ""

/-! ## The solver driving the evaluation callbacks -/

/-- One evaluation callback as the solver issues it, with its arguments. For
`eval_jac_g` this is the value phase: `xval` and `jval` are not null. -/
inductive request where
  | eval_f (xlen : Int) (xval : List byte) (xnew : Bool) (fval : double)
  | eval_g (xlen : Int) (xval : List byte) (xnew : Bool) (glen : Int) (gval : List byte)
  | eval_grad_f (xlen : Int) (xval : List byte) (xnew : Bool) (jval : List byte)
  | eval_jac_g (xlen : Int) (xval : List byte) (xnew : Bool) (glen jlen : Int)
      (jrow jcol : List Int) (jval : List byte)

/-- The argument `xlen` of a callback. -/
def request.xlen : request → Int
  | .eval_f xlen _ _ _ => xlen
  | .eval_g xlen _ _ _ _ => xlen
  | .eval_grad_f xlen _ _ _ => xlen
  | .eval_jac_g xlen _ _ _ _ _ _ _ => xlen

/-- The argument `xval` of a callback. -/
def request.xval : request → List byte
  | .eval_f _ xval _ _ => xval
  | .eval_g _ xval _ _ _ => xval
  | .eval_grad_f _ xval _ _ => xval
  | .eval_jac_g _ xval _ _ _ _ _ _ => xval

/-- The argument `xnew` of a callback. -/
def request.xnew : request → Bool
  | .eval_f _ _ xnew _ => xnew
  | .eval_g _ _ xnew _ _ => xnew
  | .eval_grad_f _ _ xnew _ => xnew
  | .eval_jac_g _ _ xnew _ _ _ _ _ => xnew

/-- The host callable a callback is answered with. -/
def request.callee (self : proxy_nlp) : request → pyobject
  | .eval_f _ _ _ _ => self.evalf
  | .eval_g _ _ _ _ _ => self.evalg
  | .eval_grad_f _ _ _ _ => self.gradf
  | .eval_jac_g _ _ _ _ _ _ _ _ => self.gradg

/-- A well-formed C-contiguous array of `coin_value_t`: its memory holds exactly
its elements, and fits the address space. -/
def ndarray.is_vector (a : ndarray) : Prop :=
  a.get_dtype = coin_value_t ∧ a.get_flags &&& C_CONTIGUOUS ≠ 0 ∧
  a.get_data.length = a.count * coin_value_t.itemsize ∧
  a.count * coin_value_t.itemsize < SIZE_MOD

instance (a : ndarray) : Decidable a.is_vector := by
  unfold ndarray.is_vector; infer_instance

/-- The exception the specification calls `TypeMismatch`. -/
def TypeMismatch : error :=
  .runtime_error "The numpy.ndarray can not be converted to the desired C-type."

/-- The exception the specification calls `UnsupportedRequest`. -/
def UnsupportedRequest : error :=
  .runtime_error "Setting (bound) multipliers not supported in get_starting_point."

/-- The exceptions the specification calls `LengthMismatch`. -/
def LengthMismatch : List error :=
  [ .runtime_error "Lower limit (xlimlo) in get_bounds_info shorter than xcount.",
    .runtime_error "Upper limit (xlimhi) in get_bounds_info shorter than xcount.",
    .runtime_error "Upper limit (glimlo) in get_bounds_info shorter than gcount.",
    .runtime_error "Upper limit (glimhi) in get_bounds_info shorter than gcount.",
    .runtime_error "Starting point (xstart) in get_starting_point shorter than xcount.",
    .runtime_error "The result of evalg is shorter than gcount.",
    .runtime_error "The result of gradf is shorter than xcount.",
    .runtime_error "The result of gradg is shorter than xcount * gcount." ]

/-- The host object `source` converts to an array of fewer than `count` elements. -/
def short {σ : Type} (py : python σ) (source : pyobject) (count : Nat) : Prop :=
  ∃ a, proxy_nlp.make_ndarray py source = .ok a ∧ a.count < count

/-! ## A small host runtime for concrete evaluation -/

/-- A host runtime for running the model on concrete data. The conversion to an
array hands back an array that already has the requested element type as it is
and refuses everything else; a host callable is a reference `ref id`, returns
`results id` and leaves the array it is handed as `after id` says; only Python
floats convert to a number. The host has no state. -/
def python.sample (results : Nat → Except error pyobject)
    (after : Nat → pyobject → pyobject) : python Unit :=
  { call := fun _ callee _ xpoint =>
      match callee with
      | .ref id => ⟨results id, after id xpoint, ()⟩
      | _ => ⟨.error (.python_error "TypeError"), xpoint, ()⟩
    array := fun source T =>
      match source with
      | .array a =>
        if a.get_dtype = T then .ok a else .error (.python_error "TypeError")
      | _ => .error (.python_error "TypeError")
    extract_value := fun source =>
      match source with
      | .float v => some v
      | _ => none }

/-- A one-dimensional C-contiguous, aligned array of `coin_value_t` over the given
bytes. -/
def sample_vector (count : Nat) (bytes : List byte) : ndarray :=
  ⟨coin_value_t, CARRAY_RO, [count], [coin_value_t.itemsize], bytes⟩

/-- What the sample callables return: `ref 0 .. ref 3` give a float, a one-element
gradient, a one-element constraint vector and a one-element Jacobian. -/
def sample_results (id : Nat) : Except error pyobject :=
  match id with
  | 0 => .ok (.float 77)
  | 1 => .ok (.array (sample_vector 1 [0, 0, 0, 0, 0, 0, 0, 0]))
  | 2 => .ok (.array (sample_vector 1 [0, 0, 0, 0, 0, 0, 0, 0]))
  | 3 => .ok (.array (sample_vector 1 [0, 0, 0, 0, 0, 0, 0, 0]))
  | _ => .error (.python_error "TypeError")

/-- A runtime whose callables leave the array they are handed alone. -/
def sample_runtime : python Unit :=
  python.sample sample_results (fun _ xpoint => xpoint)

/-- A problem with one variable and one constraint; every array has one element. -/
def sample_problem : proxy_nlp :=
  proxy_nlp.new (.ref 0) (.ref 1) (.ref 2) (.ref 3)
    (.array (sample_vector 1 [4, 4, 4, 4, 4, 4, 4, 4]))
    (.int 1)
    (.array (sample_vector 1 [1, 1, 1, 1, 1, 1, 1, 1]))
    (.array (sample_vector 1 [2, 2, 2, 2, 2, 2, 2, 2]))
    (.int 1)
    (.array (sample_vector 1 [3, 3, 3, 3, 3, 3, 3, 3]))
    (.array (sample_vector 1 [6, 6, 6, 6, 6, 6, 6, 6]))

/-- The same problem, except that `xstart` and `xlimlo` have two elements while
`xcount` stays `1`. -/
def sample_problem_long : proxy_nlp :=
  { sample_problem with
    xstart := .array (sample_vector 2 [4, 4, 4, 4, 4, 4, 4, 4, 5, 5, 5, 5, 5, 5, 5, 5])
    xlimlo := .array (sample_vector 2 [1, 1, 1, 1, 1, 1, 1, 1, 9, 9, 9, 9, 9, 9, 9, 9]) }

/-- The same problem, except that `glimhi` is empty while `gcount` stays `1`. -/
def sample_problem_short : proxy_nlp :=
  { sample_problem with glimhi := .array (sample_vector 0 []) }

/-- The view `numpy.array([a, g, b])[::2]` of `double`s: two elements, 16 bytes
apart, over 24 bytes of memory; aligned and writeable, not contiguous. Its
elements are `a` and `b`; `g` lies between them. -/
def strided_pair : ndarray :=
  { get_dtype := coin_value_t
    get_flags := ALIGNED ||| WRITEABLE
    shape := [2]
    strides := [16]
    get_data := [1, 1, 1, 1, 1, 1, 1, 1, 9, 9, 9, 9, 9, 9, 9, 9, 2, 2, 2, 2, 2, 2, 2, 2] }

/-- A problem with two variables and one constraint whose `xstart` and `xlimlo` are
the strided view; `xlimhi` is a contiguous array of two elements. -/
def sample_problem_strided : proxy_nlp :=
  proxy_nlp.new (.ref 0) (.ref 1) (.ref 2) (.ref 3)
    (.array strided_pair)
    (.int 2)
    (.array strided_pair)
    (.array (sample_vector 2 [7, 7, 7, 7, 7, 7, 7, 7, 8, 8, 8, 8, 8, 8, 8, 8]))
    (.int 1)
    (.array (sample_vector 1 [3, 3, 3, 3, 3, 3, 3, 3]))
    (.array (sample_vector 1 [6, 6, 6, 6, 6, 6, 6, 6]))

/-- A buffer of `count` numbers, zero-filled, as the solver hands it over. -/
def zeros (count : Nat) : List byte := List.replicate (count * coin_value_t.itemsize) 0

/-! ## Lemmas on raw memory -/

theorem memcpy_length (dst src : List byte) (n : Nat)
    (hs : n ≤ src.length) (hd : n ≤ dst.length) :
    (memcpy dst src n).length = dst.length := by
  simp only [memcpy, List.length_append, List.length_take, List.length_drop]
  omega

theorem memcpy_all (dst src : List byte) (h : dst.length = src.length) :
    memcpy dst src src.length = src := by
  simp [memcpy, ← h]

theorem memcpy_element_lt (T : dtype) (dst src : List byte) (n i : Nat)
    (hs : n * T.itemsize ≤ src.length) (hi : i < n) :
    element T (memcpy dst src (n * T.itemsize)) i = element T src i := by
  have h1 : (i + 1) * T.itemsize ≤ n * T.itemsize := Nat.mul_le_mul_right _ hi
  have h2 : (i + 1) * T.itemsize = i * T.itemsize + T.itemsize := by ring
  apply List.ext_getElem?
  intro k
  simp only [element, memcpy, List.getElem?_take, List.getElem?_drop]
  by_cases hk : k < T.itemsize
  · have hlt : i * T.itemsize + k < (List.take (n * T.itemsize) src).length := by
      rw [List.length_take]; omega
    rw [if_pos hk, if_pos hk, List.getElem?_append_left hlt, List.getElem?_take]
    rw [if_pos (by omega)]
  · rw [if_neg hk, if_neg hk]

theorem memcpy_element_ge (T : dtype) (dst src : List byte) (n i : Nat)
    (hs : n * T.itemsize ≤ src.length) (hi : n ≤ i) :
    element T (memcpy dst src (n * T.itemsize)) i = element T dst i := by
  have h1 : n * T.itemsize ≤ i * T.itemsize := Nat.mul_le_mul_right _ hi
  apply List.ext_getElem?
  intro k
  simp only [element, memcpy, List.getElem?_take, List.getElem?_drop]
  by_cases hk : k < T.itemsize
  · have hlen : (List.take (n * T.itemsize) src).length = n * T.itemsize := by
      rw [List.length_take]; omega
    rw [if_pos hk, if_pos hk, List.getElem?_append_right (by omega), List.getElem?_drop, hlen]
    congr 1
    omega
  · rw [if_neg hk, if_neg hk]

theorem ndarray_size_loop (shape : List Nat) (init : Nat) :
    shape.foldl (fun acc extent => acc * extent % SIZE_MOD) init % SIZE_MOD
      = init * shape.prod % SIZE_MOD := by
  induction shape generalizing init with
  | nil => simp
  | cons d ds ih =>
    rw [List.foldl_cons, ih, List.prod_cons, Nat.mod_mul_mod, Nat.mul_assoc]

theorem ndarray_size_loop_lt (shape : List Nat) (init : Nat) (h : init < SIZE_MOD) :
    shape.foldl (fun acc extent => acc * extent % SIZE_MOD) init < SIZE_MOD := by
  induction shape generalizing init with
  | nil => simpa using h
  | cons d ds ih =>
    rw [List.foldl_cons]
    exact ih _ (Nat.mod_lt _ (by unfold SIZE_MOD; positivity))

theorem ndarray_size_mod (array : ndarray) :
    ndarray_size array = array.count % SIZE_MOD := by
  have h := ndarray_size_loop array.shape 1
  rw [Nat.one_mul, Nat.mod_eq_of_lt (ndarray_size_loop_lt _ 1 (by decide))] at h
  exact h

theorem ndarray_size_eq (array : ndarray) (h : array.count < SIZE_MOD) :
    ndarray_size array = array.count := by
  rw [ndarray_size_mod, Nat.mod_eq_of_lt h]

theorem carray_ro_of_c_contiguous (flags : Nat) (h : flags &&& C_CONTIGUOUS ≠ 0) :
    ¬ (flags &&& CARRAY_RO = 0) := by
  intro h0
  apply h
  have : (flags &&& CARRAY_RO) &&& C_CONTIGUOUS = flags &&& C_CONTIGUOUS := by
    rw [Nat.and_assoc]; rfl
  rw [← this, h0]; rfl

/-- What `copy_ndarray_into_data` does once both checks pass and nothing
overflows: it copies `min count size` whole elements. -/
theorem copy_ndarray_into_data_ok (T : dtype) (size : Nat) (data : List byte)
    (array : ndarray)
    (htype : array.get_dtype = T)
    (hflag : ¬ (array.get_flags &&& CARRAY_RO = 0))
    (hsrc : array.count * T.itemsize < SIZE_MOD)
    (hitem : 0 < T.itemsize) :
    copy_ndarray_into_data T size data array =
      ⟨memcpy data array.get_data (min array.count size * T.itemsize),
        .ok (min array.count size)⟩ := by
  have hcount : array.count < SIZE_MOD :=
    lt_of_le_of_lt (Nat.le_mul_of_pos_right _ hitem) hsrc
  have hbytes : min array.count size * T.itemsize < SIZE_MOD :=
    lt_of_le_of_lt (Nat.mul_le_mul_right _ (Nat.min_le_left _ _)) hsrc
  simp only [copy_ndarray_into_data, htype, ne_eq, not_true_eq_false, if_false, hflag,
    ndarray_size_eq array hcount, Nat.mod_eq_of_lt hbytes]

/-! ## C1: what a successful copy does -/

/-- C1. For a source array whose element type is the destination type `T` and that
is C-contiguous, holding `array.count` elements, and a destination declared (and
allocated) with `size` elements, `copy_ndarray_into_data` returns
`min array.count size`; the destination keeps its length, its first
`min array.count size` elements are those of the source and every later element
is unchanged. With `array.count = size` it returns `size` and the destination is
byte for byte the source; with `array.count < size` it returns `array.count`,
which is not `size`. -/
theorem copy_ndarray_into_data_contiguous (T : dtype) (size : Nat)
    (data : List byte) (array : ndarray)
    (htype : array.get_dtype = T)
    (hflag : array.get_flags &&& C_CONTIGUOUS ≠ 0)
    (hitem : 0 < T.itemsize)
    (hsrc : array.get_data.length = array.count * T.itemsize)
    (hsrcfit : array.count * T.itemsize < SIZE_MOD)
    (hdst : data.length = size * T.itemsize) :
    (copy_ndarray_into_data T size data array).ret = .ok (min array.count size) ∧
    (copy_ndarray_into_data T size data array).data.length = data.length ∧
    (∀ i, i < min array.count size →
      element T (copy_ndarray_into_data T size data array).data i
        = element T array.get_data i) ∧
    (∀ i, min array.count size ≤ i →
      element T (copy_ndarray_into_data T size data array).data i
        = element T data i) ∧
    (array.count = size →
      (copy_ndarray_into_data T size data array).ret = .ok size ∧
      (copy_ndarray_into_data T size data array).data = array.get_data) ∧
    (array.count < size →
      (copy_ndarray_into_data T size data array).ret = .ok array.count ∧
      (copy_ndarray_into_data T size data array).ret ≠ .ok size) := by
  rw [copy_ndarray_into_data_ok T size data array htype
    (carray_ro_of_c_contiguous _ hflag) hsrcfit hitem]
  have hle : min array.count size * T.itemsize ≤ array.get_data.length := by
    rw [hsrc]; exact Nat.mul_le_mul_right _ (Nat.min_le_left _ _)
  have hle2 : min array.count size * T.itemsize ≤ data.length := by
    rw [hdst]; exact Nat.mul_le_mul_right _ (Nat.min_le_right _ _)
  refine ⟨rfl, memcpy_length _ _ _ hle hle2, ?_, ?_, ?_, ?_⟩
  · intro i hi
    exact memcpy_element_lt T _ _ _ i hle hi
  · intro i hi
    exact memcpy_element_ge T _ _ _ i hle hi
  · intro heq
    refine ⟨by simp [heq], ?_⟩
    simp only [heq, Nat.min_self]
    rw [heq] at hsrc
    rw [← hsrc]
    exact memcpy_all _ _ (by rw [hdst, hsrc])
  · intro hlt
    have hmin : min array.count size = array.count := Nat.min_eq_left (Nat.le_of_lt hlt)
    refine ⟨by simp [hmin], ?_⟩
    simp only [hmin, ne_eq, Except.ok.injEq]
    omega

/-- C1 at a concrete input: two `double`s copied into a buffer declared with three. -/
theorem copy_ndarray_into_data_contiguous_witness :
    (copy_ndarray_into_data coin_value_t 3
        (List.replicate 24 0)
        ⟨coin_value_t, 5, [2], [8], [1, 2, 3, 4, 5, 6, 7, 8, 9, 10, 11, 12, 13, 14, 15, 16]⟩).ret
      = .ok 2 ∧
    (copy_ndarray_into_data coin_value_t 3
        (List.replicate 24 0)
        ⟨coin_value_t, 5, [2], [8], [1, 2, 3, 4, 5, 6, 7, 8, 9, 10, 11, 12, 13, 14, 15, 16]⟩).data
      = [1, 2, 3, 4, 5, 6, 7, 8, 9, 10, 11, 12, 13, 14, 15, 16, 0, 0, 0, 0, 0, 0, 0, 0] := by
  have h := copy_ndarray_into_data_contiguous coin_value_t 3 (List.replicate 24 0)
    ⟨coin_value_t, 5, [2], [8], [1, 2, 3, 4, 5, 6, 7, 8, 9, 10, 11, 12, 13, 14, 15, 16]⟩
    rfl (by decide) (by decide) (by decide) (by decide) (by decide)
  exact ⟨h.1, by decide⟩

/-! ## C2: the structure query -/

theorem wrap_index_of_range (z : Int) (hlo : INT_MIN ≤ z) (hhi : z ≤ INT_MAX) :
    wrap_index z = z := by
  unfold INT_MIN at hlo
  unfold INT_MAX at hhi
  unfold wrap_index
  rw [Int.emod_eq_of_lt (by omega) (by omega)]
  omega

/-- C2 (as amended). For positive `xcount = m` and `gcount = n` whose products
`n * m` and `m * m` do not exceed `INT_MAX`, `get_nlp_info` returns `true` with
`xlen = m`, `glen = n`, `jlen = n * m`, `hlen = m * m` and C-style (0-based)
indexing. -/
theorem get_nlp_info_dense (self : proxy_nlp) (out : nlp_info) (m n : Int)
    (hm : 0 < m) (hn : 0 < n)
    (hjac : n * m ≤ INT_MAX) (hhess : m * m ≤ INT_MAX)
    (hx : self.xcount = .int m) (hg : self.gcount = .int n) :
    self.get_nlp_info out =
      ({ xlen := m, glen := n, jlen := n * m, hlen := m * m, flag := .C_STYLE },
        .ok true) := by
  have hmm : m ≤ m * m := by nlinarith
  have hnm : n ≤ n * m := by nlinarith
  have hj0 : 0 ≤ n * m := by positivity
  have hh0 : 0 ≤ m * m := by positivity
  have hmin : INT_MIN ≤ 0 := by decide
  have hxm : INT_MIN ≤ m ∧ m ≤ INT_MAX := ⟨by omega, by omega⟩
  have hgn : INT_MIN ≤ n ∧ n ≤ INT_MAX := ⟨by omega, by omega⟩
  simp only [proxy_nlp.get_nlp_info, hx, hg, extract_index, hxm, hgn, and_self, if_true,
    wrap_index_of_range (n * m) (by omega) hjac,
    wrap_index_of_range (m * m) (by omega) hhess]

/-- C2 at a concrete input: two variables and three constraints. -/
theorem get_nlp_info_dense_witness :
    (proxy_nlp.new .None .None .None .None .None (.int 2) .None .None
        (.int 3) .None .None).get_nlp_info ⟨0, 0, 0, 0, .FORTRAN_STYLE⟩ =
      ({ xlen := 2, glen := 3, jlen := 6, hlen := 4, flag := .C_STYLE }, .ok true) :=
  get_nlp_info_dense _ _ 2 3 (by decide) (by decide) (by decide) (by decide) rfl rfl

/-- C2 as stated fails. With `xcount = gcount = 65536` the call returns `true`,
but the products do not fit `coin_index_t`: `jlen` and `hlen` come out as `0`, not
`65536 * 65536`. With `xcount = 2 ^ 31` the extraction of `xcount` raises and the
call does not succeed at all. -/
theorem get_nlp_info_dense_overflow :
    ((proxy_nlp.new .None .None .None .None .None (.int 65536) .None .None
        (.int 65536) .None .None).get_nlp_info ⟨0, 0, 0, 0, .FORTRAN_STYLE⟩ =
      ({ xlen := 65536, glen := 65536, jlen := 0, hlen := 0, flag := .C_STYLE },
        .ok true)) ∧
    ((0 : Int) ≠ 65536 * 65536) ∧
    ((proxy_nlp.new .None .None .None .None .None (.int (2 ^ 31)) .None .None
        (.int 1) .None .None).get_nlp_info ⟨0, 0, 0, 0, .FORTRAN_STYLE⟩).2 =
      .error (.python_error "OverflowError") := by
  refine ⟨by decide, by decide, by decide⟩

/-! ## C3: the structure phase of the Jacobian callback -/

theorem message_eq_switch_on (coin : SolverReturn) (status : Int) :
    proxy_nlp.message coin status = switch_on "UNASSIGNED" status coin.table := rfl

theorem switch_on_mem (default : String) (table : List (Int × String))
    (hnodup : (table.map Prod.fst).Nodup) (code : Int) (name : String)
    (hmem : (code, name) ∈ table) : switch_on default code table = name := by
  induction table with
  | nil => simp at hmem
  | cons entry rest ih =>
    obtain ⟨value, label⟩ := entry
    rw [List.map_cons, List.nodup_cons] at hnodup
    rcases List.mem_cons.mp hmem with h | h
    · obtain ⟨rfl, rfl⟩ := Prod.mk.inj h
      simp [switch_on]
    · have hne : code ≠ value := by
        rintro rfl
        exact hnodup.1 (List.mem_map.mpr ⟨(code, name), h, rfl⟩)
      simp only [switch_on, if_neg hne]
      exact ih hnodup.2 h

theorem switch_on_not_mem (default : String) (table : List (Int × String))
    (status : Int) (hnone : ∀ entry ∈ table, status ≠ entry.1) :
    switch_on default status table = default := by
  induction table with
  | nil => rfl
  | cons entry rest ih =>
    obtain ⟨value, label⟩ := entry
    have hne : status ≠ value := hnone (value, label) (List.mem_cons_self _ _)
    simp only [switch_on, if_neg hne]
    exact ih (fun e he => hnone e (List.mem_cons_of_mem _ he))

/-- C4. Whatever status the solver reports, `finalize_solution` stores it and:
for `SUCCESS` the record has `success = 1` (true) and message `"SUCCESS"`; for any
other enumerator named in `message` it has `success = 0` (false) and that
enumerator's own name as message; for a number that is none of these enumerators
it has message `"UNASSIGNED"` and `success = 0`. -/
theorem finalize_solution_status (coin : SolverReturn) (hdistinct : coin.distinct)
    (self : proxy_nlp) (status xlen glen : Int) (xval gval : List byte) (fval : double) :
    (self.finalize_solution coin status xlen xval glen gval fval).result.status = status ∧
    (status = coin.SUCCESS →
      (self.finalize_solution coin status xlen xval glen gval fval).result.success = 1 ∧
      (self.finalize_solution coin status xlen xval glen gval fval).result.message
        = "SUCCESS") ∧
    (∀ code name, (code, name) ∈ coin.table → code ≠ coin.SUCCESS → status = code →
      (self.finalize_solution coin status xlen xval glen gval fval).result.success = 0 ∧
      (self.finalize_solution coin status xlen xval glen gval fval).result.message
        = name) ∧
    ((∀ entry ∈ coin.table, status ≠ entry.1) →
      (self.finalize_solution coin status xlen xval glen gval fval).result.success = 0 ∧
      (self.finalize_solution coin status xlen xval glen gval fval).result.message
        = "UNASSIGNED") := by
  refine ⟨rfl, ?_, ?_, ?_⟩
  · intro h
    simp [proxy_nlp.finalize_solution, proxy_nlp.message, h]
  · intro code name hmem hne hst
    subst hst
    simp only [proxy_nlp.finalize_solution, if_neg hne, message_eq_switch_on]
    exact ⟨trivial, switch_on_mem _ _ hdistinct _ _ hmem⟩
  · intro hnone
    have hne : status ≠ coin.SUCCESS :=
      hnone (coin.SUCCESS, "SUCCESS") (by simp [SolverReturn.table])
    simp only [proxy_nlp.finalize_solution, if_neg hne, message_eq_switch_on]
    exact ⟨trivial, switch_on_not_mem _ _ _ hnone⟩

/-- C4 at a concrete input: the enumerators numbered from `0` in the order of the
`switch`, and status `5`. -/
theorem finalize_solution_status_witness :
    (sample_problem.finalize_solution
        ⟨0, 1, 2, 3, 4, 5, 6, 7, 8, 9, 10, 11, 12, 13, 14, 15, 16⟩
        5 1 [1, 2, 3, 4, 5, 6, 7, 8] 1 [1, 2, 3, 4, 5, 6, 7, 8] 77).result.message
      = "LOCAL_INFEASIBILITY" :=
  ((finalize_solution_status ⟨0, 1, 2, 3, 4, 5, 6, 7, 8, 9, 10, 11, 12, 13, 14, 15, 16⟩
    (by decide) sample_problem 5 1 1 [1, 2, 3, 4, 5, 6, 7, 8] [1, 2, 3, 4, 5, 6, 7, 8]
    77).2.2.1 5 "LOCAL_INFEASIBILITY" (by decide) (by decide) rfl).2

/-! ## C5: a source of another element type -/

/-- C5. When the element type of the source differs from the destination type,
`copy_ndarray_into_data` throws `TypeMismatch` and the destination memory is what
it was before the call, whatever the flags (contiguous or not), shape and data of
the source. -/
theorem copy_ndarray_into_data_type_mismatch (T : dtype) (size : Nat)
    (data : List byte) (array : ndarray) (htype : array.get_dtype ≠ T) :
    (copy_ndarray_into_data T size data array).ret = .error TypeMismatch ∧
    (copy_ndarray_into_data T size data array).data = data := by
  simp only [copy_ndarray_into_data, if_pos htype, TypeMismatch, and_self]

/-- C5 at a concrete input: a non-contiguous array of 4-byte integers offered to a
buffer of `double`. -/
theorem copy_ndarray_into_data_type_mismatch_witness :
    (copy_ndarray_into_data coin_value_t 1 [0, 0, 0, 0, 0, 0, 0, 0]
      ⟨⟨'i', 4⟩, 0, [2], [8], [1, 2, 3, 4, 5, 6, 7, 8, 0, 0, 0, 0]⟩).ret = .error TypeMismatch ∧
    (copy_ndarray_into_data coin_value_t 1 [0, 0, 0, 0, 0, 0, 0, 0]
      ⟨⟨'i', 4⟩, 0, [2], [8], [1, 2, 3, 4, 5, 6, 7, 8, 0, 0, 0, 0]⟩).data = [0, 0, 0, 0, 0, 0, 0, 0] :=
  copy_ndarray_into_data_type_mismatch coin_value_t 1 [0, 0, 0, 0, 0, 0, 0, 0]
    ⟨⟨'i', 4⟩, 0, [2], [8], [1, 2, 3, 4, 5, 6, 7, 8, 0, 0, 0, 0]⟩ (by decide)

/-! ## C6: arrays whose length is not the declared count -/

theorem ndarray_size_le_count (array : ndarray) : ndarray_size array ≤ array.count := by
  rw [ndarray_size_mod]; exact Nat.mod_le _ _

/-- A copy that reports `size` elements had a source of at least `size` elements. -/
theorem copy_ndarray_into_data_full (T : dtype) (size : Nat) (data : List byte)
    (array : ndarray) (count : Nat)
    (h : (copy_ndarray_into_data T size data array).ret = .ok count)
    (hfull : size = count) : size ≤ array.count := by
  unfold copy_ndarray_into_data at h
  split at h
  · simp at h
  · split at h
    · simp at h
    · simp only [Except.ok.injEq] at h
      have := ndarray_size_le_count array
      omega

/-- When `get_bounds_info` returns normally, each of the four conversions succeeded
and gave an array of at least the declared count of elements. -/
theorem get_bounds_info_returns {σ : Type} (py : python σ) (self : proxy_nlp)
    (xlen : Int) (xmin xmax : List byte) (glen : Int) (gmin gmax : List byte) (b : Bool)
    (h : (self.get_bounds_info py xlen xmin xmax glen gmin gmax).ret = .ok b) :
    (∃ a, proxy_nlp.make_ndarray py self.xlimlo = .ok a ∧ to_size_t xlen ≤ a.count) ∧
    (∃ a, proxy_nlp.make_ndarray py self.xlimhi = .ok a ∧ to_size_t xlen ≤ a.count) ∧
    (∃ a, proxy_nlp.make_ndarray py self.glimlo = .ok a ∧ to_size_t glen ≤ a.count) ∧
    (∃ a, proxy_nlp.make_ndarray py self.glimhi = .ok a ∧ to_size_t glen ≤ a.count) := by
  unfold proxy_nlp.get_bounds_info at h
  cases h1 : proxy_nlp.make_ndarray py self.xlimlo with
  | error e => simp [h1] at h
  | ok a1 =>
  simp only [h1] at h
  cases hc1 : (copy_ndarray_into_data coin_value_t (to_size_t xlen) xmin a1).ret with
  | error e => simp [hc1] at h
  | ok n1 =>
  simp only [hc1] at h
  by_cases hn1 : to_size_t xlen = n1
  swap
  · simp [hn1] at h
  subst hn1
  simp only [ne_eq, not_true_eq_false, if_false] at h
  have g1 := copy_ndarray_into_data_full _ _ _ _ _ hc1 rfl
  cases h2 : proxy_nlp.make_ndarray py self.xlimhi with
  | error e => simp [h2] at h
  | ok a2 =>
  simp only [h2] at h
  cases hc2 : (copy_ndarray_into_data coin_value_t (to_size_t xlen) xmax a2).ret with
  | error e => simp [hc2] at h
  | ok n2 =>
  simp only [hc2] at h
  by_cases hn2 : to_size_t xlen = n2
  swap
  · simp [hn2] at h
  subst hn2
  simp only [ne_eq, not_true_eq_false, if_false] at h
  have g2 := copy_ndarray_into_data_full _ _ _ _ _ hc2 rfl
  cases h3 : proxy_nlp.make_ndarray py self.glimlo with
  | error e => simp [h3] at h
  | ok a3 =>
  simp only [h3] at h
  cases hc3 : (copy_ndarray_into_data coin_value_t (to_size_t glen) gmin a3).ret with
  | error e => simp [hc3] at h
  | ok n3 =>
  simp only [hc3] at h
  by_cases hn3 : to_size_t glen = n3
  swap
  · simp [hn3] at h
  subst hn3
  simp only [ne_eq, not_true_eq_false, if_false] at h
  have g3 := copy_ndarray_into_data_full _ _ _ _ _ hc3 rfl
  cases h4 : proxy_nlp.make_ndarray py self.glimhi with
  | error e => simp [h4] at h
  | ok a4 =>
  simp only [h4] at h
  cases hc4 : (copy_ndarray_into_data coin_value_t (to_size_t glen) gmax a4).ret with
  | error e => simp [hc4] at h
  | ok n4 =>
  simp only [hc4] at h
  by_cases hn4 : to_size_t glen = n4
  swap
  · simp [hn4] at h
  subst hn4
  have g4 := copy_ndarray_into_data_full _ _ _ _ _ hc4 rfl
  exact ⟨⟨a1, rfl, g1⟩, ⟨a2, rfl, g2⟩, ⟨a3, rfl, g3⟩, ⟨a4, rfl, g4⟩⟩

/-- When `get_starting_point` is asked for `x` and returns normally, the conversion
of `xstart` succeeded and gave an array of at least the declared count of elements. -/
theorem get_starting_point_returns {σ : Type} (py : python σ) (self : proxy_nlp)
    (xlen glen : Int) (xval zmin zmax lval : List byte) (zset lset : Bool) (b : Bool)
    (h : (self.get_starting_point py xlen true xval zset zmin zmax glen lset lval).ret
      = .ok b) :
    ∃ a, proxy_nlp.make_ndarray py self.xstart = .ok a ∧ to_size_t xlen ≤ a.count := by
  unfold proxy_nlp.get_starting_point at h
  by_cases hz : (zset || lset) = true
  · simp [hz] at h
  simp only [hz, Bool.false_eq_true, if_false, if_true] at h
  cases h1 : proxy_nlp.make_ndarray py self.xstart with
  | error e => simp [h1] at h
  | ok a =>
  simp only [h1] at h
  cases hc : (copy_ndarray_into_data coin_value_t (to_size_t xlen) xval a).ret with
  | error e => simp [hc] at h
  | ok n =>
  simp only [hc] at h
  by_cases hn : to_size_t xlen = n
  swap
  · simp [hn] at h
  subst hn
  exact ⟨a, rfl, copy_ndarray_into_data_full _ _ _ _ _ hc rfl⟩

theorem not_ok_is_error (ret : Except error Bool) (h : ∀ b, ret ≠ .ok b) :
    ∃ e, ret = .error e := by
  cases ret with
  | error e => exact ⟨e, rfl⟩
  | ok b => exact absurd rfl (h b)

/-- C6 (as amended). If one of `xlimlo`, `xlimhi`, `glimlo`, `glimhi` converts to an
array with fewer elements than the count handed to `get_bounds_info`, that call
throws; if `xstart` converts to an array with fewer elements than the count handed
to `get_starting_point` and `x` is requested, that call throws. -/
theorem short_array_throws {σ : Type} (py : python σ) (self : proxy_nlp)
    (xlen glen : Int) (xmin xmax gmin gmax xval zmin zmax lval : List byte)
    (zset lset : Bool) :
    ((short py self.xlimlo (to_size_t xlen) ∨ short py self.xlimhi (to_size_t xlen) ∨
        short py self.glimlo (to_size_t glen) ∨ short py self.glimhi (to_size_t glen)) →
      ∃ e, (self.get_bounds_info py xlen xmin xmax glen gmin gmax).ret = .error e) ∧
    (short py self.xstart (to_size_t xlen) →
      ∃ e, (self.get_starting_point py xlen true xval zset zmin zmax glen lset lval).ret
        = .error e) := by
  constructor
  · intro hshort
    apply not_ok_is_error
    intro b hb
    obtain ⟨⟨a1, e1, g1⟩, ⟨a2, e2, g2⟩, ⟨a3, e3, g3⟩, ⟨a4, e4, g4⟩⟩ :=
      get_bounds_info_returns py self xlen xmin xmax glen gmin gmax b hb
    rcases hshort with ⟨a, ea, ha⟩ | ⟨a, ea, ha⟩ | ⟨a, ea, ha⟩ | ⟨a, ea, ha⟩
    · rw [e1] at ea; cases ea; omega
    · rw [e2] at ea; cases ea; omega
    · rw [e3] at ea; cases ea; omega
    · rw [e4] at ea; cases ea; omega
  · rintro ⟨a, ea, ha⟩
    apply not_ok_is_error
    intro b hb
    obtain ⟨a1, e1, g1⟩ :=
      get_starting_point_returns py self xlen glen xval zmin zmax lval zset lset b hb
    rw [e1] at ea; cases ea; omega

/-- C6 at a concrete input: `glimhi` is empty where one element is declared. -/
theorem short_array_throws_witness :
    ∃ e, (sample_problem_short.get_bounds_info sample_runtime
      1 (zeros 1) (zeros 1) 1 (zeros 1) (zeros 1)).ret = .error e :=
  (short_array_throws sample_runtime sample_problem_short 1 1
    (zeros 1) (zeros 1) (zeros 1) (zeros 1) [] [] [] [] false false).1
    (Or.inr (Or.inr (Or.inr ⟨sample_vector 0 [], rfl, by decide⟩)))

/-- C6 as stated fails for arrays that are too long. With `xcount = gcount = 1`,
an `xlimlo` of two elements does not make `get_bounds_info` throw: it returns
`true` and `xmin` receives the first element. Likewise an `xstart` of two elements
does not make `get_starting_point` throw. -/
theorem long_array_accepted :
    (sample_problem_long.get_nlp_info ⟨0, 0, 0, 0, .FORTRAN_STYLE⟩
      = (⟨1, 1, 1, 1, .C_STYLE⟩, .ok true)) ∧
    (sample_problem_long.get_bounds_info sample_runtime
        1 (zeros 1) (zeros 1) 1 (zeros 1) (zeros 1)
      = ⟨[1, 1, 1, 1, 1, 1, 1, 1], [2, 2, 2, 2, 2, 2, 2, 2], [3, 3, 3, 3, 3, 3, 3, 3],
          [6, 6, 6, 6, 6, 6, 6, 6], .ok true⟩) ∧
    (sample_problem_long.get_starting_point sample_runtime
        1 true (zeros 1) false [] [] 1 false []
      = ⟨[4, 4, 4, 4, 4, 4, 4, 4], .ok true⟩) := by
  refine ⟨by decide, by decide, by decide⟩

/-! ## C7: the bounds query -/

theorem to_size_t_of_index (i : Int) (h0 : 0 ≤ i) (h1 : i ≤ INT_MAX) :
    to_size_t i = i.toNat := by
  unfold INT_MAX at h1
  unfold to_size_t
  rw [Int.emod_eq_of_lt h0 (by omega)]

theorem memcpy_exact (dst src : List byte) (n : Nat)
    (hs : src.length = n) (hd : dst.length = n) : memcpy dst src n = src := by
  subst hs
  exact memcpy_all dst src hd

/-- The copy of a well-formed vector of `coin_value_t`. -/
theorem copy_vector (size : Nat) (data : List byte) (a : ndarray) (hv : a.is_vector) :
    copy_ndarray_into_data coin_value_t size data a =
      ⟨memcpy data a.get_data (min a.count size * coin_value_t.itemsize),
        .ok (min a.count size)⟩ :=
  copy_ndarray_into_data_ok coin_value_t size data a hv.1
    (carray_ro_of_c_contiguous _ hv.2.1) hv.2.2.2 (by decide)

/-- On well-formed contiguous vectors the bounds query does what the specification
says. Let the four bound objects convert to well-formed C-contiguous vectors of
`coin_value_t`, and let `get_bounds_info` be called with index values `xlen`, `glen`
and buffers of `xlen`, `xlen`, `glen`, `glen` numbers. If `xlimlo`, `xlimhi` have
`xlen` elements and `glimlo`, `glimhi` have `glen` elements, the call returns
`true` and the buffers hold exactly the bytes of `xlimlo`, `xlimhi`, `glimlo`,
`glimhi`. If any of the four has fewer elements than its count, the call throws a
`LengthMismatch`. -/
theorem get_bounds_info_vectors {σ : Type} (py : python σ) (self : proxy_nlp)
    (xlen glen : Int) (xmin xmax gmin gmax : List byte) (a1 a2 a3 a4 : ndarray)
    (hx0 : 0 ≤ xlen) (hx1 : xlen ≤ INT_MAX) (hg0 : 0 ≤ glen) (hg1 : glen ≤ INT_MAX)
    (h1 : proxy_nlp.make_ndarray py self.xlimlo = .ok a1) (v1 : a1.is_vector)
    (h2 : proxy_nlp.make_ndarray py self.xlimhi = .ok a2) (v2 : a2.is_vector)
    (h3 : proxy_nlp.make_ndarray py self.glimlo = .ok a3) (v3 : a3.is_vector)
    (h4 : proxy_nlp.make_ndarray py self.glimhi = .ok a4) (v4 : a4.is_vector)
    (b1 : xmin.length = xlen.toNat * coin_value_t.itemsize)
    (b2 : xmax.length = xlen.toNat * coin_value_t.itemsize)
    (b3 : gmin.length = glen.toNat * coin_value_t.itemsize)
    (b4 : gmax.length = glen.toNat * coin_value_t.itemsize) :
    (a1.count = xlen.toNat ∧ a2.count = xlen.toNat ∧
        a3.count = glen.toNat ∧ a4.count = glen.toNat →
      self.get_bounds_info py xlen xmin xmax glen gmin gmax
        = ⟨a1.get_data, a2.get_data, a3.get_data, a4.get_data, .ok true⟩) ∧
    (a1.count < xlen.toNat ∨ a2.count < xlen.toNat ∨
        a3.count < glen.toNat ∨ a4.count < glen.toNat →
      ∃ e ∈ LengthMismatch,
        (self.get_bounds_info py xlen xmin xmax glen gmin gmax).ret = .error e) := by
  simp only [proxy_nlp.get_bounds_info, h1, h2, h3, h4, copy_vector _ _ _ v1,
    copy_vector _ _ _ v2, copy_vector _ _ _ v3, copy_vector _ _ _ v4,
    to_size_t_of_index xlen hx0 hx1, to_size_t_of_index glen hg0 hg1]
  constructor
  · rintro ⟨e1, e2, e3, e4⟩
    have d1 := v1.2.2.1
    have d2 := v2.2.2.1
    have d3 := v3.2.2.1
    have d4 := v4.2.2.1
    rw [e1] at d1
    rw [e2] at d2
    rw [e3] at d3
    rw [e4] at d4
    simp only [e1, e2, e3, e4, min_self, ne_eq, not_true_eq_false, if_false,
      memcpy_exact _ _ _ d1 b1, memcpy_exact _ _ _ d2 b2, memcpy_exact _ _ _ d3 b3,
      memcpy_exact _ _ _ d4 b4]
  · intro hshort
    by_cases c1 : a1.count < xlen.toNat
    · have t : xlen.toNat ≠ min a1.count xlen.toNat := by omega
      rw [if_pos t]
      exact ⟨_, by simp [LengthMismatch], rfl⟩
    have t1 : ¬ (xlen.toNat ≠ min a1.count xlen.toNat) := by omega
    rw [if_neg t1]
    by_cases c2 : a2.count < xlen.toNat
    · have t : xlen.toNat ≠ min a2.count xlen.toNat := by omega
      rw [if_pos t]
      exact ⟨_, by simp [LengthMismatch], rfl⟩
    have t2 : ¬ (xlen.toNat ≠ min a2.count xlen.toNat) := by omega
    rw [if_neg t2]
    by_cases c3 : a3.count < glen.toNat
    · have t : glen.toNat ≠ min a3.count glen.toNat := by omega
      rw [if_pos t]
      exact ⟨_, by simp [LengthMismatch], rfl⟩
    have t3 : ¬ (glen.toNat ≠ min a3.count glen.toNat) := by omega
    rw [if_neg t3]
    by_cases c4 : a4.count < glen.toNat
    · have t : glen.toNat ≠ min a4.count glen.toNat := by omega
      rw [if_pos t]
      exact ⟨_, by simp [LengthMismatch], rfl⟩
    omega

/-- C7, where the code departs from it. `xlimlo` is a strided view of exactly
`xlen = 2` elements. The test meant to make sure the array is contiguous lets it
through, because the view is aligned; `get_bounds_info` returns `true`, and `xmin`
holds the first 16 bytes of the underlying memory, the first element and the gap,
not the two elements of `xlimlo`. The other three buffers hold their arrays. -/
theorem get_bounds_info_strided :
    sample_problem_strided.get_bounds_info sample_runtime
        2 (zeros 2) (zeros 2) 1 (zeros 1) (zeros 1)
      = ⟨[1, 1, 1, 1, 1, 1, 1, 1, 9, 9, 9, 9, 9, 9, 9, 9],
          [7, 7, 7, 7, 7, 7, 7, 7, 8, 8, 8, 8, 8, 8, 8, 8],
          [3, 3, 3, 3, 3, 3, 3, 3], [6, 6, 6, 6, 6, 6, 6, 6], .ok true⟩ ∧
    strided_pair.count = 2 ∧
    strided_pair.get_flags &&& C_CONTIGUOUS = 0 ∧
    strided_pair.values = [1, 1, 1, 1, 1, 1, 1, 1, 2, 2, 2, 2, 2, 2, 2, 2] ∧
    (sample_problem_strided.get_bounds_info sample_runtime
        2 (zeros 2) (zeros 2) 1 (zeros 1) (zeros 1)).xmin ≠ strided_pair.values := by
  refine ⟨by decide, by decide, by decide, by decide, by decide⟩

/-! ## C9: the starting point query -/

/-- The cases of the starting point query. `get_starting_point` throws
`UnsupportedRequest` whenever `zset` or `lset` is set, and then the `x` buffer is
what it was. Otherwise: with `xset` not set it returns `true` and the `x` buffer is
what it was; with `xset` set, `xstart` converting to a well-formed C-contiguous
vector and a buffer of `xlen` numbers, it returns `true` with the buffer holding
exactly the bytes of `xstart` when `xstart` has `xlen` elements, and throws a
`LengthMismatch` when `xstart` has fewer. -/
theorem get_starting_point_cases {σ : Type} (py : python σ) (self : proxy_nlp)
    (xlen glen : Int) (xset zset lset : Bool) (xval zmin zmax lval : List byte) :
    (zset = true ∨ lset = true →
      self.get_starting_point py xlen xset xval zset zmin zmax glen lset lval
        = ⟨xval, .error UnsupportedRequest⟩) ∧
    (zset = false → lset = false → xset = false →
      self.get_starting_point py xlen xset xval zset zmin zmax glen lset lval
        = ⟨xval, .ok true⟩) ∧
    (zset = false → lset = false → xset = true →
      ∀ a, proxy_nlp.make_ndarray py self.xstart = .ok a → a.is_vector →
        0 ≤ xlen → xlen ≤ INT_MAX → xval.length = xlen.toNat * coin_value_t.itemsize →
        (a.count = xlen.toNat →
          self.get_starting_point py xlen xset xval zset zmin zmax glen lset lval
            = ⟨a.get_data, .ok true⟩) ∧
        (a.count < xlen.toNat →
          (self.get_starting_point py xlen xset xval zset zmin zmax glen lset lval).ret
            = .error (.runtime_error
                "Starting point (xstart) in get_starting_point shorter than xcount.") ∧
          error.runtime_error
              "Starting point (xstart) in get_starting_point shorter than xcount."
            ∈ LengthMismatch)) := by
  refine ⟨?_, ?_, ?_⟩
  · intro h
    have hz : (zset || lset) = true := by
      rcases h with h | h <;> simp [h]
    simp only [proxy_nlp.get_starting_point, hz, if_true, UnsupportedRequest]
  · intro hz hl hx
    simp [proxy_nlp.get_starting_point, hz, hl, hx]
  · intro hz hl hx a ha hv h0 h1 hbuf
    subst hz hl hx
    simp only [proxy_nlp.get_starting_point, Bool.or_self, Bool.false_eq_true, if_false,
      if_true, ha, copy_vector _ _ _ hv, to_size_t_of_index xlen h0 h1]
    constructor
    · intro he
      have hd := hv.2.2.1
      rw [he] at hd
      simp only [he, min_self, ne_eq, not_true_eq_false, if_false,
        memcpy_exact _ _ _ hd hbuf]
    · intro hlt
      have t : xlen.toNat ≠ min a.count xlen.toNat := by omega
      rw [if_pos t]
      exact ⟨rfl, by simp [LengthMismatch]⟩

/-- C9, where the code departs from it. With `zset` or `lset` set the call throws
`UnsupportedRequest` and the `x` buffer is untouched, and with nothing requested it
returns `true` and the buffer is untouched. But with `xset` set
and `xstart` a strided view of exactly `xlen = 2` elements, the layout test lets
the view through because it is aligned: the call returns `true` and the `x` buffer
holds the first 16 bytes of the underlying memory, the first element and the gap,
not the two elements of `xstart`. -/
theorem get_starting_point_strided :
    sample_problem_strided.get_starting_point sample_runtime
        2 true (zeros 2) true [] [] 1 false []
      = ⟨zeros 2, .error UnsupportedRequest⟩ ∧
    sample_problem_strided.get_starting_point sample_runtime
        2 false (zeros 2) false [] [] 1 false []
      = ⟨zeros 2, .ok true⟩ ∧
    sample_problem_strided.get_starting_point sample_runtime
        2 true (zeros 2) false [] [] 1 false []
      = ⟨[1, 1, 1, 1, 1, 1, 1, 1, 9, 9, 9, 9, 9, 9, 9, 9], .ok true⟩ ∧
    strided_pair.count = 2 ∧
    strided_pair.get_flags &&& C_CONTIGUOUS = 0 ∧
    strided_pair.values = [1, 1, 1, 1, 1, 1, 1, 1, 2, 2, 2, 2, 2, 2, 2, 2] ∧
    (sample_problem_strided.get_starting_point sample_runtime
        2 true (zeros 2) false [] [] 1 false []).xval ≠ strided_pair.values := by
  refine ⟨by decide, by decide, by decide, by decide, by decide, by decide, by decide⟩

/-! ## C10: the option text -/

theorem options_loop_lines (lines : List String) (stream : String) :
    options_loop (lines.map pyobject.str) stream =
      .ok ((lines.map (fun line => line ++ "\n")).foldl (fun r s => r ++ s) stream) := by
  induction lines generalizing stream with
  | nil => rfl
  | cons line rest ih =>
    simp only [List.map_cons, options_loop, extract_string, List.foldl_cons]
    rw [ih, String.append_assoc]

/-- C10. For every sequence of option lines, the text `minimize` writes into
`options_stream` is the concatenation, in the given order, of each line followed by
one line break: nothing is dropped, reordered or merged. The two lines
`max_iter 5`, `max_iter 10` give `max_iter 5\nmax_iter 10\n`, and no line gives the
empty text. -/
theorem options_stream_lines (lines : List String) :
    options_stream (lines.map pyobject.str)
      = .ok (String.join (lines.map (fun line => line ++ "\n"))) ∧
    options_stream [.str "max_iter 5", .str "max_iter 10"]
      = .ok "max_iter 5\nmax_iter 10\n" ∧
    options_stream [] = .ok "" := by
  refine ⟨options_loop_lines lines "", by decide, rfl⟩

/-! ## C8: the point handed to the host callables -/

end ipopt4py
